import Mathlib

/-!
# Verification of `nat_traversal`'s TCP mapping and hole punching

A shallow embedding of `src/mapped_tcp_socket.rs` from the
`maidsafe/nat_traversal` repository.  External effects (socket syscalls,
IGD gateway requests, echo-server I/O, channel receives) are supplied by
explicit environment records; the control flow of each Rust function is
translated step by step.  Small helper modules of the repository that are
not part of the provided sources (`mapping_context`, `rendezvous_info`,
`listener_message`) are modelled from the specification, as noted on the
corresponding definitions.
-/

namespace NatTraversal

/-- An IPv4 address, abstracted as a natural number; `0` stands for the
unspecified address `0.0.0.0`. -/
abbrev Ipv4Addr := Nat

/-- An IPv6 address, abstracted as a natural number; `0` stands for `::`. -/
abbrev Ipv6Addr := Nat

/-- `ip::IpAddr`: either an IPv4 or an IPv6 address. -/
inductive IpAddr where
  | v4 (a : Ipv4Addr)
  | v6 (a : Ipv6Addr)
deriving DecidableEq, Repr

/-- `socket_addr::SocketAddr`: an IP address together with a port. -/
structure SocketAddr where
  ip : IpAddr
  port : Nat
deriving DecidableEq, Repr

/-- `socket_utils::ipv4_is_unspecified`: whether an IPv4 address is `0.0.0.0`. -/
def ipv4_is_unspecified (a : Ipv4Addr) : Bool := a = 0

/-- `socket_utils::ipv6_is_unspecified`: whether an IPv6 address is `::`. -/
def ipv6_is_unspecified (a : Ipv6Addr) : Bool := a = 0

/-- An IGD gateway handle; we keep only its address (used in warnings).
Its `get_any_address` operation is an external effect supplied by the
environment. -/
structure Gateway where
  addr : SocketAddr
deriving DecidableEq, Repr

/-- Modelled from the spec: `mapping_context::InterfaceV4` (module not in
the provided sources) — a local IPv4 address and an optional IGD gateway
handle. -/
structure InterfaceV4 where
  addr : Ipv4Addr
  gateway : Option Gateway
deriving DecidableEq, Repr

/-- Modelled from the spec: `mapping_context::InterfaceV6` — a local IPv6
address. -/
structure InterfaceV6 where
  addr : Ipv6Addr
deriving DecidableEq, Repr

/-- Modelled from the spec: `mapping_context::MappingContext` — ordered
sequences of non-loopback IPv4 and IPv6 interfaces enumerated at
construction, plus the registered simple TCP echo servers.  (The simple
UDP servers play no role in the TCP code verified here.) -/
structure MappingContext where
  interfacesV4 : List InterfaceV4
  interfacesV6 : List InterfaceV6
  simpleTcpServers : List SocketAddr
deriving DecidableEq, Repr

/-- Modelled from the spec: `mapping_context::interfaces_v4`. -/
def interfaces_v4 (mc : MappingContext) : List InterfaceV4 := mc.interfacesV4

/-- Modelled from the spec: `mapping_context::interfaces_v6`. -/
def interfaces_v6 (mc : MappingContext) : List InterfaceV6 := mc.interfacesV6

/-- Modelled from the spec: `mapping_context::simple_tcp_servers`. -/
def simple_tcp_servers (mc : MappingContext) : List SocketAddr := mc.simpleTcpServers

/-- `mapped_socket_addr::MappedSocketAddr`: an external endpoint together
with the `nat_restricted` flag. -/
structure MappedSocketAddr where
  addr : SocketAddr
  nat_restricted : Bool
deriving DecidableEq, Repr

/-- Modelled from the spec: `listener_message::REQUEST_MAGIC_CONSTANT` — a
fixed 4-byte magic request constant (its concrete value is opaque here). -/
def REQUEST_MAGIC_CONSTANT : List Nat := [82, 69, 81, 83]

/-- `MappedTcpSocketMapWarning`: warnings raised by `MappedTcpSocket::map`. -/
inductive MapWarning where
  | findGateway
  | getExternalPort (gateway_addr : SocketAddr)
  | newReusablyBoundSocket
  | mappingSocketConnect (addr : SocketAddr)
  | mappingSocketWrite
  | mappingSocketRead
  | deserialise (addr : SocketAddr) (response : List Nat)
deriving DecidableEq, Repr

/-- `MappedTcpSocketMapError`: the one fatal error of `MappedTcpSocket::map`. -/
inductive MapError where
  | socketLocalAddr
deriving DecidableEq, Repr

/-- `w_result::WResult`: success with accumulated warnings, or a fatal error. -/
inductive WResult (T W E : Type) where
  | wok (t : T) (warnings : List W)
  | werr (e : E)
deriving DecidableEq, Repr

/-- The operations a `MappedTcpSocket::map` echo worker performs on its
temporary socket, in order of execution (used to check that no read/write
deadline is ever installed on the exchange). -/
inductive EchoOp where
  | newSocket
  | connect (server : SocketAddr)
  | write (data : List Nat)
  | read
  | setReadTimeout (secs : Nat)
  | setWriteTimeout (secs : Nat)
deriving DecidableEq, Repr

/-- Environment for one echo worker: the outcome of each external step
(`new_reusably_bound_socket`, `connect`, `write`, `read`, `deserialise`). -/
structure EchoEnv where
  newSocket : Except Unit Unit
  connect : Except Unit Unit
  write : Except Unit Nat
  read : Except Unit (List Nat)
  deserialise : List Nat → Except Unit SocketAddr

/-- One echo worker of `MappedTcpSocket::map`
(src/mapped_tcp_socket.rs lines 349–383): create a reusably bound socket,
connect to the simple server, write the magic request, read the response,
deserialise it.  Returns the external address or the warning the worker
reports, together with the trace of socket operations it performed. -/
def echoWorker (env : EchoEnv) (simple_server : SocketAddr) :
    Except MapWarning SocketAddr × List EchoOp :=
  match env.newSocket with
  | .error _ => (.error .newReusablyBoundSocket, [.newSocket])
  | .ok _ =>
    match env.connect with
    | .error _ => (.error (.mappingSocketConnect simple_server),
                   [.newSocket, .connect simple_server])
    | .ok _ =>
      match env.write with
      | .error _ => (.error .mappingSocketWrite,
                     [.newSocket, .connect simple_server, .write REQUEST_MAGIC_CONSTANT])
      | .ok _ =>
        match env.read with
        | .error _ => (.error .mappingSocketRead,
                       [.newSocket, .connect simple_server,
                        .write REQUEST_MAGIC_CONSTANT, .read])
        | .ok recv_data =>
          match env.deserialise recv_data with
          | .error _ => (.error (.deserialise simple_server recv_data),
                         [.newSocket, .connect simple_server,
                          .write REQUEST_MAGIC_CONSTANT, .read])
          | .ok external_addr => (.ok external_addr,
                                  [.newSocket, .connect simple_server,
                                   .write REQUEST_MAGIC_CONSTANT, .read])

/-- Provenance of an endpoint produced by `MappedTcpSocket::map`: derived
from a local interface address (or the socket's own bound address), from
an IGD gateway mapping, or from a simple echo server's response. -/
inductive Source where
  | iface
  | igd
  | echo
deriving DecidableEq, Repr

/-- Environment for `MappedTcpSocket::map`: the socket's local address
query, the IGD operations, and one echo environment per registered simple
TCP server (by position in the server list). -/
structure MapEnv where
  localAddr : Except Unit SocketAddr
  getAnyAddress : Gateway → SocketAddr → Except Unit SocketAddr
  searchGateway : Ipv4Addr → Nat → Except Unit Gateway
  echo : Nat → EchoEnv

/-- Ask a gateway for an external address for `internal`
(`gateway.get_any_address(TCP, internal, 0, "rust nat_traversal")`):
on success one IGD-derived endpoint, on failure a `GetExternalPort`
warning. -/
def igdRequest (env : MapEnv) (g : Gateway) (internal : SocketAddr) :
    List (MappedSocketAddr × Source) × List MapWarning :=
  match env.getAnyAddress g internal with
  | .ok external_addr => ([(⟨external_addr, false⟩, .igd)], [])
  | .error _ => ([], [.getExternalPort g.addr])

/-- The endpoints and warnings contributed by one IPv4 interface when the
socket is bound to the unspecified address (lines 244–269): the interface
address itself, then — when the interface has a gateway — the result of
the IGD request. -/
def ifaceContribution (env : MapEnv) (port : Nat) (iface : InterfaceV4) :
    List (MappedSocketAddr × Source) × List MapWarning :=
  match iface.gateway with
  | none => ([(⟨⟨.v4 iface.addr, port⟩, false⟩, .iface)], [])
  | some gateway =>
    ((⟨⟨.v4 iface.addr, port⟩, false⟩, .iface) ::
       (igdRequest env gateway ⟨.v4 iface.addr, port⟩).1,
     (igdRequest env gateway ⟨.v4 iface.addr, port⟩).2)

/-- The interface loop of lines 244–269: contributions of the listed
interfaces, concatenated in order. -/
def discoverUnspecV4Go (env : MapEnv) (port : Nat) :
    List InterfaceV4 → List (MappedSocketAddr × Source) × List MapWarning
  | [] => ([], [])
  | iface :: rest =>
    ((ifaceContribution env port iface).1 ++ (discoverUnspecV4Go env port rest).1,
     (ifaceContribution env port iface).2 ++ (discoverUnspecV4Go env port rest).2)

/-- Discovery for a socket bound to `0.0.0.0` (lines 240–270): one
contribution per recorded IPv4 interface, in context order. -/
def discoverUnspecV4 (env : MapEnv) (mc : MappingContext) (port : Nat) :
    List (MappedSocketAddr × Source) × List MapWarning :=
  discoverUnspecV4Go env port (interfaces_v4 mc)

/-- The first recorded IPv4 interface whose address equals `a`, if any
(the `for … break` search of lines 281–287). -/
def lookupIfaceGateway (mc : MappingContext) (a : Ipv4Addr) : Option (Option Gateway) :=
  ((interfaces_v4 mc).find? (fun iface => iface.addr = a)).map (·.gateway)

/-- Discovery for a socket bound to a specific IPv4 address (lines
271–324): the bound address itself, then the IGD result obtained either
from the matching interface's recorded gateway or — when no interface
matches — from a fresh 1-second `igd::search_gateway_from_timeout` at that
address.  The third component records every gateway search performed, as
`(address, timeout in seconds)` pairs. -/
def discoverSpecV4 (env : MapEnv) (mc : MappingContext) (a : Ipv4Addr) (port : Nat) :
    List (MappedSocketAddr × Source) × List MapWarning × List (Ipv4Addr × Nat) :=
  match lookupIfaceGateway mc a with
  | some (some gateway) =>
    ((⟨⟨.v4 a, port⟩, false⟩, .iface) :: (igdRequest env gateway ⟨.v4 a, port⟩).1,
     (igdRequest env gateway ⟨.v4 a, port⟩).2, [])
  | some none => ([(⟨⟨.v4 a, port⟩, false⟩, .iface)], [], [])
  | none =>
    match env.searchGateway a 1 with
    | .ok gateway =>
      ((⟨⟨.v4 a, port⟩, false⟩, .iface) :: (igdRequest env gateway ⟨.v4 a, port⟩).1,
       (igdRequest env gateway ⟨.v4 a, port⟩).2, [(a, 1)])
    | .error _ => ([(⟨⟨.v4 a, port⟩, false⟩, .iface)], [.findGateway], [(a, 1)])

/-- Discovery for IPv6-bound sockets (lines 326–343): the interface
addresses for `::`, the bound address itself otherwise.  No IGD, no
warnings. -/
def discoverV6 (mc : MappingContext) (a : Ipv6Addr) (port : Nat) :
    List (MappedSocketAddr × Source) :=
  if ipv6_is_unspecified a then
    (interfaces_v6 mc).map (fun iface => (⟨⟨.v6 iface.addr, port⟩, false⟩, .iface))
  else
    [(⟨⟨.v6 a, port⟩, false⟩, .iface)]

/-- The echo phase of `MappedTcpSocket::map` (lines 346–397): one worker
per registered simple TCP server, joined in spawn order; successes append
an endpoint with `nat_restricted = true`, failures append the worker's
warning. -/
def echoPhaseGo (env : MapEnv) :
    List SocketAddr → Nat → List (MappedSocketAddr × Source) × List MapWarning
  | [], _ => ([], [])
  | server :: rest, i =>
    match (echoWorker (env.echo i) server).1 with
    | .ok external_addr =>
      ((⟨external_addr, true⟩, .echo) :: (echoPhaseGo env rest (i + 1)).1,
       (echoPhaseGo env rest (i + 1)).2)
    | .error w =>
      ((echoPhaseGo env rest (i + 1)).1, w :: (echoPhaseGo env rest (i + 1)).2)

/-- See `echoPhaseGo`: the workers for `servers`, numbered from 0. -/
def echoPhase (env : MapEnv) (servers : List SocketAddr) :
    List (MappedSocketAddr × Source) × List MapWarning :=
  echoPhaseGo env servers 0

/-- The address-discovery phase of `MappedTcpSocket::map` (lines
238–344): the branch matching the bound local address.  Returns the
tagged endpoints, the warnings, and the gateway searches performed. -/
def discoverPhase (env : MapEnv) (mc : MappingContext) (local_addr : SocketAddr) :
    List (MappedSocketAddr × Source) × List MapWarning × List (Ipv4Addr × Nat) :=
  match local_addr.ip with
  | .v4 ipv4_addr =>
    if ipv4_is_unspecified ipv4_addr then
      ((discoverUnspecV4 env mc local_addr.port).1,
       (discoverUnspecV4 env mc local_addr.port).2, [])
    else
      discoverSpecV4 env mc ipv4_addr local_addr.port
  | .v6 ipv6_addr => (discoverV6 mc ipv6_addr local_addr.port, [], [])

/-- `MappedTcpSocket::map` (lines 228–402) with provenance tags and the
gateway-search trace kept: query the local address (fatal
`SocketLocalAddr` on failure), run the branch matching the bound address,
then the echo phase. -/
def mapTagged (env : MapEnv) (mc : MappingContext) :
    WResult (List (MappedSocketAddr × Source) × List (Ipv4Addr × Nat)) MapWarning MapError :=
  match env.localAddr with
  | .error _ => .werr .socketLocalAddr
  | .ok local_addr =>
    .wok ((discoverPhase env mc local_addr).1 ++ (echoPhase env (simple_tcp_servers mc)).1,
          (discoverPhase env mc local_addr).2.2)
         ((discoverPhase env mc local_addr).2.1 ++ (echoPhase env (simple_tcp_servers mc)).2)

namespace MappedTcpSocket

/-- `MappedTcpSocket::map`: the endpoint list and warnings actually
returned to the caller (provenance tags and the search trace erased). -/
def map (env : MapEnv) (mc : MappingContext) :
    WResult (List MappedSocketAddr) MapWarning MapError :=
  match mapTagged env mc with
  | .werr e => .werr e
  | .wok (tagged, _) ws => .wok (tagged.map Prod.fst) ws

end MappedTcpSocket

/-- `MappedTcpSocketNewError`: errors returned by `MappedTcpSocket::new`. -/
inductive NewError where
  | createSocket
  | enableReuseAddr
  | enableReusePort
  | bind
  | map (err : MapError)
deriving DecidableEq, Repr

/-- Environment for `MappedTcpSocket::new`: the outcome of each socket
setup step, and the environment for the final `map` call. -/
structure NewEnv where
  newV4 : Except Unit Unit
  reuseAddr : Except Unit Unit
  reusePort : Except Unit Unit
  bind : Except Unit Unit
  mapEnv : MapEnv

namespace MappedTcpSocket

/-- `MappedTcpSocket::new` (lines 405–426): create a v4 TCP socket,
enable `SO_REUSEADDR`, enable `SO_REUSEPORT`, bind to `0.0.0.0:0`, then
call `MappedTcpSocket::map`; the first failing step short-circuits with
the corresponding fatal error. -/
def new (env : NewEnv) (mc : MappingContext) :
    WResult (List MappedSocketAddr) MapWarning NewError :=
  match env.newV4 with
  | .error _ => .werr .createSocket
  | .ok _ =>
    match env.reuseAddr with
    | .error _ => .werr .enableReuseAddr
    | .ok _ =>
      match env.reusePort with
      | .error _ => .werr .enableReusePort
      | .ok _ =>
        match env.bind with
        | .error _ => .werr .bind
        | .ok _ =>
          match MappedTcpSocket.map env.mapEnv mc with
          | .werr e => .werr (.map e)
          | .wok endpoints ws => .wok endpoints ws

end MappedTcpSocket

/-- A 4-byte value (a handshake secret or the bytes received in its
place). -/
abbrev Bytes4 := Nat × Nat × Nat × Nat

/-- Modelled from the spec: `rendezvous_info::PrivRendezvousInfo` — the
private half, holding the 4-byte secret generated at creation. -/
structure PrivRendezvousInfo where
  secret : Bytes4
deriving DecidableEq, Repr

/-- Modelled from the spec: `rendezvous_info::PubRendezvousInfo` — the
public half, holding the advertised endpoint list and the same secret. -/
structure PubRendezvousInfo where
  endpoints : List MappedSocketAddr
  secret : Bytes4
deriving DecidableEq, Repr

/-- Modelled from the spec: `rendezvous_info::get_priv_secret`. -/
def get_priv_secret (p : PrivRendezvousInfo) : Bytes4 := p.secret

/-- Modelled from the spec: `rendezvous_info::decompose`. -/
def decompose (p : PubRendezvousInfo) : List MappedSocketAddr × Bytes4 :=
  (p.endpoints, p.secret)

/-- A connected TCP stream, abstracted as an opaque handle. -/
abbrev TcpStream := Nat

/-- `TcpPunchHoleWarning`: the per-worker warnings of `tcp_punch_hole`. -/
inductive PunchWarning where
  | connect
  | accept
  | streamSetTimeout
  | streamIo
  | invalidResponse (data : Bytes4)
deriving DecidableEq, Repr

/-- `TcpPunchHoleError`: the fatal errors of `tcp_punch_hole`;
`timedOut` carries the warnings accumulated before the deadline. -/
inductive PunchError where
  | socketLocalAddr
  | newReusablyBoundSocket
  | listen
  | timedOut (warnings : List PunchWarning)
deriving DecidableEq, Repr

/-- The total timeout, in seconds, for the whole `tcp_punch_hole` call
(`Duration::from_secs(20)`, line 502); also used as each worker stream's
read and write timeout. -/
def punchTimeoutSecs : Nat := 20

/-- The operations a handshake worker performs on its stream, in order of
execution. -/
inductive HsOp where
  | connect (addr : SocketAddr)
  | setWriteTimeout (secs : Nat)
  | setReadTimeout (secs : Nat)
  | write (data : Bytes4)
  | read (n : Nat)
deriving DecidableEq, Repr

/-- Environment for one handshake worker: the outcome of each external
step.  `connect` yields the connected stream (connector side only);
`readExact` yields the 4 bytes read. -/
structure HsEnv where
  connect : Except Unit TcpStream
  setWriteTimeout : Except Unit Unit
  setReadTimeout : Except Unit Unit
  writeAll : Except Unit Unit
  readExact : Except Unit Bytes4

/-- The connector worker body of `tcp_punch_hole` (lines 527–556): bind a
fresh reusably bound socket (done by the caller), connect to the peer
endpoint, set the write and read timeouts, write our 4-byte secret, read
exactly 4 bytes, and succeed iff they equal the peer's declared secret.
Returns the value sent on the results channel and the trace of stream
operations performed. -/
def connectorHandshake (env : HsEnv) (addr : SocketAddr) (our_secret their_secret : Bytes4) :
    Except PunchWarning TcpStream × List HsOp :=
  match env.connect with
  | .error _ => (.error .connect, [.connect addr])
  | .ok stream =>
    match env.setWriteTimeout with
    | .error _ => (.error .streamSetTimeout,
                   [.connect addr, .setWriteTimeout punchTimeoutSecs])
    | .ok _ =>
      match env.setReadTimeout with
      | .error _ => (.error .streamSetTimeout,
                     [.connect addr, .setWriteTimeout punchTimeoutSecs,
                      .setReadTimeout punchTimeoutSecs])
      | .ok _ =>
        match env.writeAll with
        | .error _ => (.error .streamIo,
                       [.connect addr, .setWriteTimeout punchTimeoutSecs,
                        .setReadTimeout punchTimeoutSecs, .write our_secret])
        | .ok _ =>
          match env.readExact with
          | .error _ => (.error .streamIo,
                         [.connect addr, .setWriteTimeout punchTimeoutSecs,
                          .setReadTimeout punchTimeoutSecs, .write our_secret, .read 4])
          | .ok recv_data =>
            (if recv_data ≠ their_secret then .error (.invalidResponse recv_data)
             else .ok stream,
             [.connect addr, .setWriteTimeout punchTimeoutSecs,
              .setReadTimeout punchTimeoutSecs, .write our_secret, .read 4])

/-- The acceptor-side handshake worker of `tcp_punch_hole` (lines
588–623), run on a stream already accepted by the listener: set the write
and read timeouts, write our 4-byte secret, read exactly 4 bytes, and
succeed iff they equal the peer's declared secret. -/
def acceptHandshake (env : HsEnv) (stream : TcpStream) (our_secret their_secret : Bytes4) :
    Except PunchWarning TcpStream × List HsOp :=
  match env.setWriteTimeout with
  | .error _ => (.error .streamSetTimeout, [.setWriteTimeout punchTimeoutSecs])
  | .ok _ =>
    match env.setReadTimeout with
    | .error _ => (.error .streamSetTimeout,
                   [.setWriteTimeout punchTimeoutSecs, .setReadTimeout punchTimeoutSecs])
    | .ok _ =>
      match env.writeAll with
      | .error _ => (.error .streamIo,
                     [.setWriteTimeout punchTimeoutSecs, .setReadTimeout punchTimeoutSecs,
                      .write our_secret])
      | .ok _ =>
        match env.readExact with
        | .error _ => (.error .streamIo,
                       [.setWriteTimeout punchTimeoutSecs, .setReadTimeout punchTimeoutSecs,
                        .write our_secret, .read 4])
        | .ok recv_data =>
          (if recv_data ≠ their_secret then .error (.invalidResponse recv_data)
           else .ok stream,
           [.setWriteTimeout punchTimeoutSecs, .setReadTimeout punchTimeoutSecs,
            .write our_secret, .read 4])

/-- One message received on the results channel of `tcp_punch_hole`
(`Option<Result<TcpStream, TcpPunchHoleWarning>>`): `timeout` is the
`None` sent by the timeout sentinel, `success` and `warning` are the
`Some(Ok(..))` / `Some(Err(..))` sent by the workers. -/
inductive ChanMsg where
  | timeout
  | success (s : TcpStream)
  | warning (w : PunchWarning)
deriving DecidableEq, Repr

/-- One event observed by `results_rx.recv()`: a delivered message, or
the channel reporting disconnection (which, in `std::sync::mpsc`, happens
only once every sender has been dropped and the queue is empty). -/
inductive ChanEvent where
  | msg (m : ChanMsg)
  | disconnect
deriving DecidableEq, Repr

/-- Outcome of `tcp_punch_hole`: a `WResult` as returned to the caller, a
panic (the channel-disconnected branch, line 662), or `starved` when the
modelled event sequence runs out (a `recv` that blocks forever). -/
inductive PunchOutcome where
  | result (r : WResult TcpStream PunchWarning PunchError)
  | panicked
  | starved
deriving DecidableEq, Repr

/-- The result-consuming loop of `tcp_punch_hole` (lines 637–664):
warnings are accumulated, the first `Some(Ok(stream))` returns it with
the warnings so far, the sentinel's `None` returns the fatal `TimedOut`
error carrying the warnings so far, and a disconnected channel panics. -/
def punchLoop : List ChanEvent → List PunchWarning → PunchOutcome
  | [], _ => .starved
  | .disconnect :: _, _ => .panicked
  | .msg .timeout :: _, warnings => .result (.werr (.timedOut warnings))
  | .msg (.success stream) :: _, warnings => .result (.wok stream warnings)
  | .msg (.warning w) :: rest, warnings => punchLoop rest (warnings ++ [w])

/-- Environment for `tcp_punch_hole`: the local address query, the
outcome of `new_reusably_bound_socket` for the n-th connector, the
outcome of `listen`, and the sequence of events the results channel
delivers. -/
structure PunchEnv where
  localAddr : Except Unit SocketAddr
  newSocket : Nat → Except Unit Unit
  listen : Except Unit Unit
  events : List ChanEvent

/-- What `tcp_punch_hole` sets in motion before its loop: the peer
endpoints for which a connector thread was spawned, and whether `listen`
was called, the acceptor thread spawned, and the timeout sentinel
spawned. -/
structure PunchTrace where
  connectorsSpawned : List SocketAddr
  listenCalled : Bool
  acceptorSpawned : Bool
  sentinelSpawned : Bool
deriving DecidableEq, Repr

/-- The connector-spawning loop (lines 518–557): for each peer endpoint,
`new_reusably_bound_socket` runs on the main thread — a failure aborts
the whole call — and then a connector thread is spawned for that
endpoint's address. -/
def spawnConnectors (env : PunchEnv) :
    List MappedSocketAddr → Nat → Except (List SocketAddr) (List SocketAddr)
  | [], _ => .ok []
  | endpoint :: rest, i =>
    match env.newSocket i with
    | .error _ => .error []
    | .ok _ =>
      match spawnConnectors env rest (i + 1) with
      | .error spawned => .error (endpoint.addr :: spawned)
      | .ok spawned => .ok (endpoint.addr :: spawned)

/-- `tcp_punch_hole` (lines 487–665): decompose the rendezvous info,
query the socket's local address (fatal on failure), spawn one connector
per peer endpoint (a `new_reusably_bound_socket` failure is fatal), call
`listen` (fatal on failure) and spawn the acceptor and the timeout
sentinel, then consume the results channel. -/
def tcp_punch_hole (env : PunchEnv)
    (our_priv_rendezvous_info : PrivRendezvousInfo)
    (their_pub_rendezvous_info : PubRendezvousInfo) :
    PunchOutcome × PunchTrace :=
  let _our_secret := get_priv_secret our_priv_rendezvous_info
  let (their_endpoints, _their_secret) := decompose their_pub_rendezvous_info
  match env.localAddr with
  | .error _ => (.result (.werr .socketLocalAddr), ⟨[], false, false, false⟩)
  | .ok _local_addr =>
    match spawnConnectors env their_endpoints 0 with
    | .error spawned => (.result (.werr .newReusablyBoundSocket), ⟨spawned, false, false, false⟩)
    | .ok connectors =>
      match env.listen with
      | .error _ => (.result (.werr .listen), ⟨connectors, true, false, false⟩)
      | .ok _ =>
        (punchLoop env.events [], ⟨connectors, true, true, true⟩)

/-- An action a worker thread of `tcp_punch_hole` can perform on the
results channel: clone a sender handle (lines 526, 565, 587, 629), send
a message on a clone it holds, or drop a clone when the thread ends.
The worker threads hold only *clones* of `results_tx` — the original
sender is owned by `tcp_punch_hole` itself (line 507) and stays in scope
until the function returns, so no worker action can drop it. -/
inductive WorkerAction where
  | cloneTx (c : Nat)
  | send (c : Nat) (m : ChanMsg)
  | dropTx (c : Nat)
deriving DecidableEq, Repr

/-- The event sequence `results_rx.recv()` observes, under the
`std::sync::mpsc` semantics, for a given trace of worker actions and a
given channel state (`originalAlive`: whether the original `results_tx`
is still alive; `clones`: the live clone handles).  Each message sent on
a live clone is delivered in order; once the trace is exhausted (the
queue has drained), a disconnection is reported iff *no* sender remains —
the original has been dropped and no live clone is left — and otherwise
`recv` blocks, ending the observed sequence.  No worker action changes
`originalAlive`. -/
def observedEvents : List WorkerAction → Bool → List Nat → List ChanEvent
  | [], originalAlive, clones =>
    if !originalAlive && clones.isEmpty then [.disconnect] else []
  | .cloneTx c :: rest, originalAlive, clones =>
    observedEvents rest originalAlive (c :: clones)
  | .send c m :: rest, originalAlive, clones =>
    if c ∈ clones then .msg m :: observedEvents rest originalAlive clones
    else observedEvents rest originalAlive clones
  | .dropTx c :: rest, originalAlive, clones =>
    observedEvents rest originalAlive (clones.erase c)

/-! ### Claim predicates and concrete sample inputs -/

/-- Rank of an endpoint provenance in the ordering asserted by the spec's
words ("interfaces first, then IGD, then echo results"). -/
def sourceRank : Source → Nat
  | .iface => 0
  | .igd => 1
  | .echo => 2

/-- The ordering property asserted by the spec's words: all
interface-derived entries first, then all IGD-derived entries, then all
echo-derived entries. -/
def claimedDiscoveryOrder (tagged : List (MappedSocketAddr × Source)) : Prop :=
  tagged.Pairwise (fun x y => sourceRank x.2 ≤ sourceRank y.2)

/-- Whether an endpoint list contains an entry with
`nat_restricted = false`. -/
def hasUnrestricted (endpoints : List MappedSocketAddr) : Bool :=
  endpoints.any (fun e => !e.nat_restricted)

/-- Whether a socket operation installs a read or write deadline. -/
def isDeadlineOp : EchoOp → Bool
  | .setReadTimeout _ => true
  | .setWriteTimeout _ => true
  | _ => false

/-- A sample IGD gateway. -/
def sampleGateway : Gateway := ⟨⟨.v4 200, 80⟩⟩

/-- A sample echo-worker environment in which every step succeeds and the
server reports external address `77.0.0.0:7000`. -/
def sampleEchoEnv : EchoEnv :=
  ⟨.ok (), .ok (), .ok 4, .ok [1], fun _ => .ok ⟨.v4 77, 7000⟩⟩

/-- A sample `map` environment: socket bound to `0.0.0.0:4000`, IGD
requests succeed with `99.0.0.0:5000`, gateway searches fail, echo
workers use `sampleEchoEnv`. -/
def sampleMapEnv : MapEnv where
  localAddr := .ok ⟨.v4 0, 4000⟩
  getAnyAddress := fun _ _ => .ok ⟨.v4 99, 5000⟩
  searchGateway := fun _ _ => .error ()
  echo := fun _ => sampleEchoEnv

/-- A sample context: two IPv4 interfaces — the first with a gateway —
and one simple TCP server. -/
def sampleMc : MappingContext :=
  ⟨[⟨10, some sampleGateway⟩, ⟨11, none⟩], [], [⟨.v4 50, 1234⟩]⟩

/-- The tagged endpoint list `mapTagged` produces on `sampleMapEnv` and
`sampleMc`. -/
def sampleTagged : List (MappedSocketAddr × Source) :=
  [(⟨⟨.v4 10, 4000⟩, false⟩, .iface),
   (⟨⟨.v4 99, 5000⟩, false⟩, .igd),
   (⟨⟨.v4 11, 4000⟩, false⟩, .iface),
   (⟨⟨.v4 77, 7000⟩, true⟩, .echo)]

/-- A context whose only (non-loopback) interface is an IPv6 one. -/
def v6OnlyMc : MappingContext := ⟨[], [⟨1⟩], []⟩

/-- A `map` environment for a socket bound to `0.0.0.0:5000`, with no
gateway reachable. -/
def v6OnlyEnv : MapEnv where
  localAddr := .ok ⟨.v4 0, 5000⟩
  getAnyAddress := fun _ _ => .error ()
  searchGateway := fun _ _ => .error ()
  echo := fun _ => sampleEchoEnv

/-- A context with a single gatewayless IPv4 interface. -/
def v4IfaceMc : MappingContext := ⟨[⟨10, none⟩], [], []⟩

/-- A `map` environment for a socket bound to `0.0.0.0:4000`, with no
gateway reachable. -/
def v4IfaceEnv : MapEnv where
  localAddr := .ok ⟨.v4 0, 4000⟩
  getAnyAddress := fun _ _ => .error ()
  searchGateway := fun _ _ => .error ()
  echo := fun _ => sampleEchoEnv

/-- A handshake environment in which every step succeeds and the peer
sends `(5,6,7,8)`. -/
def hsOkEnv : HsEnv := ⟨.ok 3, .ok (), .ok (), .ok (), .ok (5, 6, 7, 8)⟩

/-- A handshake environment in which every step succeeds but the peer
sends `(9,9,9,9)`. -/
def hsMismatchEnv : HsEnv := ⟨.ok 3, .ok (), .ok (), .ok (), .ok (9, 9, 9, 9)⟩

/-- A `new` environment in which every setup step succeeds. -/
def newOkEnv : NewEnv := ⟨.ok (), .ok (), .ok (), .ok (), sampleMapEnv⟩

/-- A `new` environment in which creating the socket fails. -/
def newFailEnv : NewEnv := ⟨.error (), .ok (), .ok (), .ok (), sampleMapEnv⟩

/-- A hole-punch environment: local address available, reusable sockets
bindable, `listen` succeeds, and the channel delivers one warning and
then a successful stream. -/
def samplePunchEnv : PunchEnv where
  localAddr := .ok ⟨.v4 1, 2⟩
  newSocket := fun _ => .ok ()
  listen := .ok ()
  events := [.msg (.warning .connect), .msg (.success 5)]

/-- A sample private rendezvous info. -/
def samplePriv : PrivRendezvousInfo := ⟨(1, 2, 3, 4)⟩

/-- A sample peer public rendezvous info with an empty endpoint list. -/
def sampleEmptyPub : PubRendezvousInfo := ⟨[], (5, 6, 7, 8)⟩

/-- A context with one IPv4 interface at address `10`, used with a socket
bound to the unrelated address `42`. -/
def freshSearchMc : MappingContext := ⟨[⟨10, none⟩], [], []⟩

/-- A `map` environment for a socket bound to the specific address
`42.0.0.0:700`, where the fresh gateway search and the subsequent IGD
request both succeed. -/
def freshSearchEnv : MapEnv where
  localAddr := .ok ⟨.v4 42, 700⟩
  getAnyAddress := fun _ _ => .ok ⟨.v4 99, 5000⟩
  searchGateway := fun _ _ => .ok sampleGateway
  echo := fun _ => sampleEchoEnv

/-! ### Helper lemmas: provenance and `nat_restricted` flags -/

theorem igdRequest_mem (env : MapEnv) (g : Gateway) (internal : SocketAddr) :
    ∀ x ∈ (igdRequest env g internal).1,
      x.1.nat_restricted = false ∧ x.2 = Source.igd := by
  intro x hx
  unfold igdRequest at hx
  cases hE : env.getAnyAddress g internal with
  | error e => rw [hE] at hx; simp at hx
  | ok a => rw [hE] at hx; simp at hx; subst hx; exact ⟨rfl, rfl⟩

theorem ifaceContribution_mem (env : MapEnv) (port : Nat) (iface : InterfaceV4) :
    ∀ x ∈ (ifaceContribution env port iface).1,
      x.1.nat_restricted = false ∧ x.2 ≠ Source.echo := by
  intro x hx
  unfold ifaceContribution at hx
  cases hG : iface.gateway with
  | none => rw [hG] at hx; simp at hx; subst hx; exact ⟨rfl, by simp⟩
  | some g =>
    rw [hG] at hx
    simp at hx
    rcases hx with hx | hx
    · subst hx; exact ⟨rfl, by simp⟩
    · obtain ⟨h1, h2⟩ := igdRequest_mem env g _ x hx
      exact ⟨h1, by rw [h2]; simp⟩

theorem discoverUnspecV4Go_mem (env : MapEnv) (port : Nat) :
    ∀ l : List InterfaceV4, ∀ x ∈ (discoverUnspecV4Go env port l).1,
      x.1.nat_restricted = false ∧ x.2 ≠ Source.echo := by
  intro l
  induction l with
  | nil => intro x hx; simp [discoverUnspecV4Go] at hx
  | cons iface rest ih =>
    intro x hx
    simp only [discoverUnspecV4Go, List.mem_append] at hx
    rcases hx with hx | hx
    · exact ifaceContribution_mem env port iface x hx
    · exact ih x hx

theorem discoverSpecV4_mem (env : MapEnv) (mc : MappingContext) (a : Ipv4Addr) (port : Nat) :
    ∀ x ∈ (discoverSpecV4 env mc a port).1,
      x.1.nat_restricted = false ∧ x.2 ≠ Source.echo := by
  intro x hx
  unfold discoverSpecV4 at hx
  cases hL : lookupIfaceGateway mc a with
  | some go =>
    cases go with
    | some g =>
      rw [hL] at hx
      simp at hx
      rcases hx with hx | hx
      · subst hx; exact ⟨rfl, by simp⟩
      · obtain ⟨h1, h2⟩ := igdRequest_mem env g _ x hx
        exact ⟨h1, by rw [h2]; simp⟩
    | none => rw [hL] at hx; simp at hx; subst hx; exact ⟨rfl, by simp⟩
  | none =>
    rw [hL] at hx
    cases hS : env.searchGateway a 1 with
    | error e => rw [hS] at hx; simp at hx; subst hx; exact ⟨rfl, by simp⟩
    | ok g =>
      rw [hS] at hx
      simp at hx
      rcases hx with hx | hx
      · subst hx; exact ⟨rfl, by simp⟩
      · obtain ⟨h1, h2⟩ := igdRequest_mem env g _ x hx
        exact ⟨h1, by rw [h2]; simp⟩

theorem discoverV6_mem (mc : MappingContext) (a : Ipv6Addr) (port : Nat) :
    ∀ x ∈ discoverV6 mc a port,
      x.1.nat_restricted = false ∧ x.2 ≠ Source.echo := by
  intro x hx
  unfold discoverV6 at hx
  cases h : ipv6_is_unspecified a with
  | true =>
    rw [h] at hx
    simp at hx
    obtain ⟨iface, _, hx⟩ := hx
    subst hx
    exact ⟨rfl, by simp⟩
  | false => rw [h] at hx; simp at hx; subst hx; exact ⟨rfl, by simp⟩

theorem discoverPhase_mem (env : MapEnv) (mc : MappingContext) (la : SocketAddr) :
    ∀ x ∈ (discoverPhase env mc la).1,
      x.1.nat_restricted = false ∧ x.2 ≠ Source.echo := by
  intro x hx
  unfold discoverPhase at hx
  cases hip : la.ip with
  | v4 a =>
    rw [hip] at hx
    cases hu : ipv4_is_unspecified a with
    | true =>
      simp only [hu, if_true] at hx
      exact discoverUnspecV4Go_mem env la.port (interfaces_v4 mc) x hx
    | false =>
      simp only [hu, Bool.false_eq_true, if_false] at hx
      exact discoverSpecV4_mem env mc a la.port x hx
  | v6 a =>
    rw [hip] at hx
    exact discoverV6_mem mc a la.port x hx

theorem echoPhaseGo_mem (env : MapEnv) :
    ∀ (l : List SocketAddr) (i : Nat), ∀ x ∈ (echoPhaseGo env l i).1,
      x.1.nat_restricted = true ∧ x.2 = Source.echo := by
  intro l
  induction l with
  | nil => intro i x hx; simp [echoPhaseGo] at hx
  | cons s rest ih =>
    intro i x hx
    unfold echoPhaseGo at hx
    cases hw : (echoWorker (env.echo i) s).1 with
    | ok a =>
      rw [hw] at hx
      simp at hx
      rcases hx with hx | hx
      · subst hx; exact ⟨rfl, rfl⟩
      · exact ih (i + 1) x hx
    | error w =>
      rw [hw] at hx
      simp at hx
      exact ih (i + 1) x hx

theorem mapTagged_wok_inv (env : MapEnv) (mc : MappingContext)
    (tagged : List (MappedSocketAddr × Source)) (searches : List (Ipv4Addr × Nat))
    (ws : List MapWarning) (la : SocketAddr)
    (hla : env.localAddr = .ok la)
    (h : mapTagged env mc = .wok (tagged, searches) ws) :
    tagged = (discoverPhase env mc la).1 ++ (echoPhase env (simple_tcp_servers mc)).1 ∧
    searches = (discoverPhase env mc la).2.2 ∧
    ws = (discoverPhase env mc la).2.1 ++ (echoPhase env (simple_tcp_servers mc)).2 := by
  unfold mapTagged at h
  rw [hla] at h
  simp only [WResult.wok.injEq, Prod.mk.injEq] at h
  obtain ⟨⟨hT, hS⟩, hW⟩ := h
  exact ⟨hT.symm, hS.symm, hW.symm⟩

/-! ### C4 -/

/-- **C4**: every endpoint `MappedTcpSocket::map` appends from a local
interface address or from an IGD gateway mapping has
`nat_restricted = false`, and every endpoint it appends from a simple
echo server's response has `nat_restricted = true`; no other combination
occurs — i.e. in a successful run, an endpoint's `nat_restricted` flag
equals whether its provenance is `echo`. -/
theorem map_nat_restricted_iff_echo (env : MapEnv) (mc : MappingContext)
    (tagged : List (MappedSocketAddr × Source)) (searches : List (Ipv4Addr × Nat))
    (ws : List MapWarning) (la : SocketAddr)
    (hla : env.localAddr = .ok la)
    (h : mapTagged env mc = .wok (tagged, searches) ws) :
    ∀ x ∈ tagged, x.1.nat_restricted = decide (x.2 = Source.echo) := by
  intro x hx
  obtain ⟨hT, _, _⟩ := mapTagged_wok_inv env mc tagged searches ws la hla h
  subst hT
  rcases List.mem_append.mp hx with hx | hx
  · obtain ⟨h1, h2⟩ := discoverPhase_mem env mc la x hx
    simp [h1, h2]
  · obtain ⟨h1, h2⟩ := echoPhaseGo_mem env (simple_tcp_servers mc) 0 x hx
    simp [h1, h2]

/-- Witness for C4: on `sampleMapEnv`/`sampleMc`, the IGD-derived entry
`99.0.0.0:5000` is unrestricted. -/
theorem map_nat_restricted_iff_echo_witness :
    (MappedSocketAddr.mk ⟨.v4 99, 5000⟩ false).nat_restricted =
      decide ((Source.igd) = Source.echo) :=
  map_nat_restricted_iff_echo sampleMapEnv sampleMc sampleTagged [] [] ⟨.v4 0, 4000⟩
    rfl rfl (⟨⟨.v4 99, 5000⟩, false⟩, .igd) (by decide)

/-! ### C2 -/

theorem punchLoop_success (pre : List PunchWarning) (rest : List ChanEvent)
    (s : TcpStream) (acc : List PunchWarning) :
    punchLoop (pre.map (fun w => ChanEvent.msg (.warning w)) ++
               ChanEvent.msg (.success s) :: rest) acc =
      .result (.wok s (acc ++ pre)) := by
  induction pre generalizing acc with
  | nil => simp [punchLoop]
  | cons w pre ih => simp [punchLoop, ih]

theorem punchLoop_timeout (pre : List PunchWarning) (rest : List ChanEvent)
    (acc : List PunchWarning) :
    punchLoop (pre.map (fun w => ChanEvent.msg (.warning w)) ++
               ChanEvent.msg .timeout :: rest) acc =
      .result (.werr (.timedOut (acc ++ pre))) := by
  induction pre generalizing acc with
  | nil => simp [punchLoop]
  | cons w pre ih => simp [punchLoop, ih]

/-- **C2**: in the result-consuming loop of `tcp_punch_hole`, per-worker
failures never abort the loop but are accumulated as warnings: after any
prefix of warning messages, the first `Ok(stream)` returns that stream
together with the warnings collected so far, and the global-deadline
message returns the fatal `TimedOut` error carrying the accumulated
warning list. -/
theorem punch_loop_first_success_or_timeout (acc pre : List PunchWarning)
    (rest : List ChanEvent) (s : TcpStream) :
    punchLoop (pre.map (fun w => ChanEvent.msg (.warning w)) ++
               ChanEvent.msg (.success s) :: rest) acc =
      .result (.wok s (acc ++ pre)) ∧
    punchLoop (pre.map (fun w => ChanEvent.msg (.warning w)) ++
               ChanEvent.msg .timeout :: rest) acc =
      .result (.werr (.timedOut (acc ++ pre))) :=
  ⟨punchLoop_success pre rest s acc, punchLoop_timeout pre rest acc⟩

/-! ### C1 -/

theorem connectorHandshake_ok_iff (env : HsEnv) (addr : SocketAddr)
    (ourS theirS : Bytes4) (s : TcpStream) :
    (connectorHandshake env addr ourS theirS).1 = .ok s ↔
      env.connect = .ok s ∧ env.setWriteTimeout = .ok () ∧
      env.setReadTimeout = .ok () ∧ env.writeAll = .ok () ∧
      env.readExact = .ok theirS := by
  obtain ⟨c, sw, sr, w, r⟩ := env
  cases c <;> cases sw <;> cases sr <;> cases w <;> cases r <;>
    simp [connectorHandshake] <;>
    (try split_ifs) <;> simp_all

theorem acceptHandshake_ok_iff (env : HsEnv) (stream : TcpStream)
    (ourS theirS : Bytes4) (s : TcpStream) :
    (acceptHandshake env stream ourS theirS).1 = .ok s ↔
      s = stream ∧ env.setWriteTimeout = .ok () ∧
      env.setReadTimeout = .ok () ∧ env.writeAll = .ok () ∧
      env.readExact = .ok theirS := by
  obtain ⟨c, sw, sr, w, r⟩ := env
  cases sw <;> cases sr <;> cases w <;> cases r <;>
    simp [acceptHandshake] <;>
    (try split_ifs) <;> simp_all [eq_comm]

theorem connectorHandshake_mismatch (env : HsEnv) (addr : SocketAddr)
    (ourS theirS recv : Bytes4) (s : TcpStream)
    (hc : env.connect = .ok s) (hsw : env.setWriteTimeout = .ok ())
    (hsr : env.setReadTimeout = .ok ()) (hw : env.writeAll = .ok ())
    (hr : env.readExact = .ok recv) (hne : recv ≠ theirS) :
    (connectorHandshake env addr ourS theirS).1 = .error (.invalidResponse recv) := by
  simp [connectorHandshake, hc, hsw, hsr, hw, hr, hne]

theorem acceptHandshake_mismatch (env : HsEnv) (stream : TcpStream)
    (ourS theirS recv : Bytes4)
    (hsw : env.setWriteTimeout = .ok ()) (hsr : env.setReadTimeout = .ok ())
    (hw : env.writeAll = .ok ()) (hr : env.readExact = .ok recv)
    (hne : recv ≠ theirS) :
    (acceptHandshake env stream ourS theirS).1 = .error (.invalidResponse recv) := by
  simp [acceptHandshake, hsw, hsr, hw, hr, hne]

theorem connectorHandshake_ops (env : HsEnv) (addr : SocketAddr)
    (ourS theirS : Bytes4) :
    ∃ k, (connectorHandshake env addr ourS theirS).2 =
      ([.connect addr, .setWriteTimeout punchTimeoutSecs,
        .setReadTimeout punchTimeoutSecs, .write ourS, .read 4] : List HsOp).take k := by
  obtain ⟨c, sw, sr, w, r⟩ := env
  cases c with
  | error e => exact ⟨1, rfl⟩
  | ok sv =>
    cases sw with
    | error e => exact ⟨2, rfl⟩
    | ok u =>
      cases sr with
      | error e => exact ⟨3, rfl⟩
      | ok u2 =>
        cases w with
        | error e => exact ⟨4, rfl⟩
        | ok u3 =>
          cases r with
          | error e => exact ⟨5, rfl⟩
          | ok d => exact ⟨5, rfl⟩

theorem acceptHandshake_ops (env : HsEnv) (stream : TcpStream)
    (ourS theirS : Bytes4) :
    ∃ k, (acceptHandshake env stream ourS theirS).2 =
      ([.setWriteTimeout punchTimeoutSecs, .setReadTimeout punchTimeoutSecs,
        .write ourS, .read 4] : List HsOp).take k := by
  obtain ⟨c, sw, sr, w, r⟩ := env
  cases sw with
  | error e => exact ⟨1, rfl⟩
  | ok u =>
    cases sr with
    | error e => exact ⟨2, rfl⟩
    | ok u2 =>
      cases w with
      | error e => exact ⟨3, rfl⟩
      | ok u3 =>
        cases r with
        | error e => exact ⟨4, rfl⟩
        | ok d => exact ⟨4, rfl⟩

/-- **C1**: every `tcp_punch_hole` handshake worker — connector-side or
acceptor-side — writes our 4-byte secret before reading exactly 4 bytes
(its stream-operation trace is a prefix of connect / set-timeouts /
`write our_secret` / `read 4`), sends `Ok(stream)` on the results channel
iff every I/O step succeeded and the 4 bytes read equal the peer's
declared secret, and on a mismatch sends an `InvalidResponse` warning
carrying the received bytes (the stream is discarded, not returned). -/
theorem handshake_secret_exchange (env : HsEnv) (addr : SocketAddr)
    (stream s : TcpStream) (ourS theirS recv : Bytes4) :
    ((connectorHandshake env addr ourS theirS).1 = .ok s ↔
      env.connect = .ok s ∧ env.setWriteTimeout = .ok () ∧
      env.setReadTimeout = .ok () ∧ env.writeAll = .ok () ∧
      env.readExact = .ok theirS) ∧
    (env.connect = .ok s → env.setWriteTimeout = .ok () →
      env.setReadTimeout = .ok () → env.writeAll = .ok () →
      env.readExact = .ok recv → recv ≠ theirS →
      (connectorHandshake env addr ourS theirS).1 = .error (.invalidResponse recv) ∧
      (acceptHandshake env stream ourS theirS).1 = .error (.invalidResponse recv)) ∧
    (∃ k, (connectorHandshake env addr ourS theirS).2 =
      ([.connect addr, .setWriteTimeout punchTimeoutSecs,
        .setReadTimeout punchTimeoutSecs, .write ourS, .read 4] : List HsOp).take k) ∧
    ((acceptHandshake env stream ourS theirS).1 = .ok s ↔
      s = stream ∧ env.setWriteTimeout = .ok () ∧
      env.setReadTimeout = .ok () ∧ env.writeAll = .ok () ∧
      env.readExact = .ok theirS) ∧
    (∃ k, (acceptHandshake env stream ourS theirS).2 =
      ([.setWriteTimeout punchTimeoutSecs, .setReadTimeout punchTimeoutSecs,
        .write ourS, .read 4] : List HsOp).take k) :=
  ⟨connectorHandshake_ok_iff env addr ourS theirS s,
   fun hc hsw hsr hw hr hne =>
     ⟨connectorHandshake_mismatch env addr ourS theirS recv s hc hsw hsr hw hr hne,
      acceptHandshake_mismatch env stream ourS theirS recv hsw hsr hw hr hne⟩,
   connectorHandshake_ops env addr ourS theirS,
   acceptHandshake_ok_iff env stream ourS theirS s,
   acceptHandshake_ops env stream ourS theirS⟩

/-- Witness for C1: on a concrete environment where the peer sends the
wrong bytes the connector reports `InvalidResponse`, and on one where it
sends the right bytes the acceptor returns the stream. -/
theorem handshake_secret_exchange_witness :
    (connectorHandshake hsMismatchEnv ⟨.v4 8, 9⟩ (1, 2, 3, 4) (5, 6, 7, 8)).1 =
      .error (.invalidResponse (9, 9, 9, 9)) ∧
    (acceptHandshake hsOkEnv 3 (1, 2, 3, 4) (5, 6, 7, 8)).1 = .ok 3 :=
  ⟨((handshake_secret_exchange hsMismatchEnv ⟨.v4 8, 9⟩ 3 3
      (1, 2, 3, 4) (5, 6, 7, 8) (9, 9, 9, 9)).2.1
      rfl rfl rfl rfl rfl (by decide)).1,
   (handshake_secret_exchange hsOkEnv ⟨.v4 8, 9⟩ 3 3
      (1, 2, 3, 4) (5, 6, 7, 8) (0, 0, 0, 0)).2.2.2.1.mpr
      ⟨rfl, rfl, rfl, rfl, rfl⟩⟩

/-! ### C3 -/

theorem discoverUnspecV4Go_eq_bind (env : MapEnv) (port : Nat) :
    ∀ l : List InterfaceV4,
      (discoverUnspecV4Go env port l).1 =
        l.flatMap (fun i => (ifaceContribution env port i).1) := by
  intro l
  induction l with
  | nil => rfl
  | cons i rest ih => simp [discoverUnspecV4Go, ih]

/-- Counterexample to C3 as stated: with two interfaces, the first of
which has a gateway, the first interface's IGD-derived entry precedes the
second interface's interface-derived entry, so the list is *not* ordered
as all interface entries, then all IGD entries, then all echo entries. -/
theorem map_endpoint_order_cex :
    mapTagged sampleMapEnv sampleMc = .wok (sampleTagged, []) [] ∧
    ¬ claimedDiscoveryOrder sampleTagged := by
  constructor
  · rfl
  · intro hord
    simp [claimedDiscoveryOrder, sampleTagged, List.pairwise_cons, sourceRank] at hord

/-- **C3** (amended): the endpoint list reflects discovery order with all
echo-server-derived entries last, but the interface-derived and
IGD-derived entries are interleaved per interface: for a socket bound to
the unspecified IPv4 address, the non-echo prefix is the concatenation,
in context order, of each interface's contribution (its own address
followed by its gateway's IGD-derived address when present). -/
theorem map_endpoint_order (env : MapEnv) (mc : MappingContext)
    (tagged : List (MappedSocketAddr × Source)) (searches : List (Ipv4Addr × Nat))
    (ws : List MapWarning) (la : SocketAddr)
    (hla : env.localAddr = .ok la)
    (h : mapTagged env mc = .wok (tagged, searches) ws) :
    tagged = (discoverPhase env mc la).1 ++ (echoPhase env (simple_tcp_servers mc)).1 ∧
    (∀ x ∈ (discoverPhase env mc la).1, x.2 ≠ Source.echo) ∧
    (∀ x ∈ (echoPhase env (simple_tcp_servers mc)).1, x.2 = Source.echo) ∧
    (∀ a, la.ip = .v4 a → ipv4_is_unspecified a = true →
      (discoverPhase env mc la).1 =
        (interfaces_v4 mc).flatMap (fun i => (ifaceContribution env la.port i).1)) := by
  refine ⟨(mapTagged_wok_inv env mc tagged searches ws la hla h).1,
          fun x hx => (discoverPhase_mem env mc la x hx).2,
          fun x hx => (echoPhaseGo_mem env (simple_tcp_servers mc) 0 x hx).2, ?_⟩
  intro a hip hu
  unfold discoverPhase
  rw [hip]
  simp only [hu, if_true]
  exact discoverUnspecV4Go_eq_bind env la.port (interfaces_v4 mc)

/-- Witness for C3 (amended): on `sampleMapEnv`/`sampleMc` the tagged
list splits into the per-interface discovery prefix and the echo
suffix. -/
theorem map_endpoint_order_witness :
    sampleTagged =
      (discoverPhase sampleMapEnv sampleMc ⟨.v4 0, 4000⟩).1 ++
        (echoPhase sampleMapEnv (simple_tcp_servers sampleMc)).1 ∧
    (discoverPhase sampleMapEnv sampleMc ⟨.v4 0, 4000⟩).1 =
      (interfaces_v4 sampleMc).flatMap
        (fun i => (ifaceContribution sampleMapEnv 4000 i).1) :=
  ⟨(map_endpoint_order sampleMapEnv sampleMc sampleTagged [] [] ⟨.v4 0, 4000⟩
      rfl rfl).1,
   (map_endpoint_order sampleMapEnv sampleMc sampleTagged [] [] ⟨.v4 0, 4000⟩
      rfl rfl).2.2.2 0 rfl rfl⟩

/-! ### C5 -/

theorem ifaceContribution_ne_nil (env : MapEnv) (port : Nat) (iface : InterfaceV4) :
    (ifaceContribution env port iface).1 ≠ [] := by
  unfold ifaceContribution
  cases iface.gateway <;> simp

theorem discoverPhase_ne_nil (env : MapEnv) (mc : MappingContext) (la : SocketAddr)
    (h4 : ∀ a, la.ip = .v4 a → ipv4_is_unspecified a = true → interfaces_v4 mc ≠ [])
    (h6 : ∀ a, la.ip = .v6 a → ipv6_is_unspecified a = true → interfaces_v6 mc ≠ []) :
    (discoverPhase env mc la).1 ≠ [] := by
  unfold discoverPhase
  cases hip : la.ip with
  | v4 a =>
    cases hu : ipv4_is_unspecified a with
    | true =>
      simp only [hu, if_true]
      have hne := h4 a hip hu
      unfold discoverUnspecV4
      cases hI : interfaces_v4 mc with
      | nil => exact absurd hI hne
      | cons iface rest =>
        unfold discoverUnspecV4Go
        intro hcontra
        exact ifaceContribution_ne_nil env la.port iface
          (List.append_eq_nil.mp hcontra).1
    | false =>
      simp only [hu, Bool.false_eq_true, if_false]
      unfold discoverSpecV4
      cases hL : lookupIfaceGateway mc a with
      | some go => cases go <;> simp
      | none => cases hS : env.searchGateway a 1 <;> simp
  | v6 a =>
    cases hu : ipv6_is_unspecified a with
    | true =>
      unfold discoverV6
      simp only [hu, if_true]
      have hne := h6 a hip hu
      cases hI : interfaces_v6 mc with
      | nil => exact absurd hI hne
      | cons iface rest => simp
    | false =>
      unfold discoverV6
      simp only [hu, Bool.false_eq_true, if_false]
      simp

/-- Counterexample to C5 as stated: a context whose only non-loopback
interface is an IPv6 one, with the socket bound to `0.0.0.0:5000`: the
context has a non-loopback interface, yet the returned endpoint list is
empty, so it contains no entry with `nat_restricted = false`. -/
theorem map_has_unrestricted_cex :
    v6OnlyMc.interfacesV6 ≠ [] ∧
    MappedTcpSocket.map v6OnlyEnv v6OnlyMc = .wok [] [] ∧
    hasUnrestricted [] = false :=
  ⟨by simp [v6OnlyMc], rfl, rfl⟩

/-- **C5** (amended): the endpoint list returned by a successful
`MappedTcpSocket::map` contains at least one entry with
`nat_restricted = false` whenever the context records at least one
non-loopback interface *of the socket's bound address family* — a v4
interface when the socket is bound to `0.0.0.0`, a v6 interface when it
is bound to `::` — (a socket bound to a specific address always
contributes such an entry, so the interface hypothesis is vacuous
there). -/
theorem map_has_unrestricted (env : MapEnv) (mc : MappingContext)
    (eps : List MappedSocketAddr) (ws : List MapWarning) (la : SocketAddr)
    (hla : env.localAddr = .ok la)
    (h4 : ∀ a, la.ip = .v4 a → ipv4_is_unspecified a = true → interfaces_v4 mc ≠ [])
    (h6 : ∀ a, la.ip = .v6 a → ipv6_is_unspecified a = true → interfaces_v6 mc ≠ [])
    (h : MappedTcpSocket.map env mc = .wok eps ws) :
    hasUnrestricted eps = true := by
  unfold MappedTcpSocket.map at h
  cases hmt : mapTagged env mc with
  | werr e => rw [hmt] at h; simp at h
  | wok p ws' =>
    obtain ⟨tagged, searches⟩ := p
    rw [hmt] at h
    simp only [WResult.wok.injEq] at h
    obtain ⟨hE, hW⟩ := h
    obtain ⟨hT, _, _⟩ := mapTagged_wok_inv env mc tagged searches ws' la hla hmt
    have hne := discoverPhase_ne_nil env mc la h4 h6
    cases hD : (discoverPhase env mc la).1 with
    | nil => exact absurd hD hne
    | cons x rest =>
      have hxmem : x ∈ (discoverPhase env mc la).1 := by
        rw [hD]; exact List.mem_cons_self x rest
      have hflag := (discoverPhase_mem env mc la x hxmem).1
      have hxeps : x.1 ∈ eps := by
        rw [← hE, hT]
        exact List.mem_map_of_mem Prod.fst (List.mem_append_left _ hxmem)
      unfold hasUnrestricted
      rw [List.any_eq_true]
      exact ⟨x.1, hxeps, by simp [hflag]⟩

/-- Witness for C5 (amended): one gatewayless v4 interface, socket bound
to `0.0.0.0:4000`: the returned list has an unrestricted entry. -/
theorem map_has_unrestricted_witness :
    hasUnrestricted [⟨⟨.v4 10, 4000⟩, false⟩] = true :=
  map_has_unrestricted v4IfaceEnv v4IfaceMc [⟨⟨.v4 10, 4000⟩, false⟩] []
    ⟨.v4 0, 4000⟩ rfl
    (fun _ _ _ => by simp [v4IfaceMc, interfaces_v4])
    (fun a ha _ => nomatch ha)
    rfl

/-! ### C6 -/

theorem echoWorker_ops_prefix (env : EchoEnv) (server : SocketAddr) :
    ∃ k, (echoWorker env server).2 =
      ([.newSocket, .connect server, .write REQUEST_MAGIC_CONSTANT, .read] :
        List EchoOp).take k := by
  unfold echoWorker
  cases hN : env.newSocket with
  | error e => exact ⟨1, rfl⟩
  | ok u =>
    cases hC : env.connect with
    | error e => exact ⟨2, rfl⟩
    | ok u2 =>
      cases hW : env.write with
      | error e => exact ⟨3, rfl⟩
      | ok n =>
        cases hR : env.read with
        | error e => exact ⟨4, rfl⟩
        | ok recv =>
          dsimp only
          cases hD : env.deserialise recv with
          | error e => exact ⟨4, rfl⟩
          | ok a => exact ⟨4, rfl⟩

/-- **C6**: contrary to the claim, the echo worker of
`MappedTcpSocket::map` installs *no* deadline whatsoever on its exchange:
its operation trace — always a prefix of create-socket / connect /
write-magic / read — contains no set-read-timeout or set-write-timeout
operation, for any per-server environment, so a server that accepts the
connection and never replies blocks the worker's read (and, through the
join, `map` itself) indefinitely. -/
theorem echoWorker_no_deadline (env : EchoEnv) (server : SocketAddr) :
    (echoWorker env server).2.filter isDeadlineOp = [] := by
  obtain ⟨k, hk⟩ := echoWorker_ops_prefix env server
  rw [hk]
  rw [List.filter_eq_nil_iff]
  intro op hop
  have hmem := List.take_subset k _ hop
  simp only [List.mem_cons, List.not_mem_nil, or_false] at hmem
  rcases hmem with h | h | h | h <;> subst h <;> simp [isDeadlineOp]

/-! ### C7 -/

/-- **C7**: `MappedTcpSocket::new` performs create-socket, SO_REUSEADDR,
SO_REUSEPORT, bind, then `map`, in that order: the first failing step
short-circuits with the corresponding fatal error (`CreateSocket`,
`EnableReuseAddr`, `EnableReusePort`, `Bind`, `Map`), and when every
setup step succeeds the result — endpoints and warnings alike — is
exactly that of `map`. -/
theorem new_order_and_short_circuit (env : NewEnv) (mc : MappingContext) :
    (env.newV4 = .error () → MappedTcpSocket.new env mc = .werr .createSocket) ∧
    (env.newV4 = .ok () → env.reuseAddr = .error () →
      MappedTcpSocket.new env mc = .werr .enableReuseAddr) ∧
    (env.newV4 = .ok () → env.reuseAddr = .ok () → env.reusePort = .error () →
      MappedTcpSocket.new env mc = .werr .enableReusePort) ∧
    (env.newV4 = .ok () → env.reuseAddr = .ok () → env.reusePort = .ok () →
      env.bind = .error () → MappedTcpSocket.new env mc = .werr .bind) ∧
    (env.newV4 = .ok () → env.reuseAddr = .ok () → env.reusePort = .ok () →
      env.bind = .ok () →
      (∀ e, MappedTcpSocket.map env.mapEnv mc = .werr e →
        MappedTcpSocket.new env mc = .werr (.map e)) ∧
      (∀ eps ws, MappedTcpSocket.map env.mapEnv mc = .wok eps ws →
        MappedTcpSocket.new env mc = .wok eps ws)) := by
  refine ⟨?_, ?_, ?_, ?_, ?_⟩
  · intro h1; simp [MappedTcpSocket.new, h1]
  · intro h1 h2; simp [MappedTcpSocket.new, h1, h2]
  · intro h1 h2 h3; simp [MappedTcpSocket.new, h1, h2, h3]
  · intro h1 h2 h3 h4; simp [MappedTcpSocket.new, h1, h2, h3, h4]
  · intro h1 h2 h3 h4
    constructor
    · intro e hm; simp [MappedTcpSocket.new, h1, h2, h3, h4, hm]
    · intro eps ws hm; simp [MappedTcpSocket.new, h1, h2, h3, h4, hm]

/-- Witness for C7: a failing create step short-circuits, and an
all-success environment returns exactly `map`'s endpoints and
warnings. -/
theorem new_order_and_short_circuit_witness :
    MappedTcpSocket.new newFailEnv sampleMc = .werr .createSocket ∧
    MappedTcpSocket.new newOkEnv sampleMc =
      .wok [⟨⟨.v4 10, 4000⟩, false⟩, ⟨⟨.v4 99, 5000⟩, false⟩,
            ⟨⟨.v4 11, 4000⟩, false⟩, ⟨⟨.v4 77, 7000⟩, true⟩] [] :=
  ⟨(new_order_and_short_circuit newFailEnv sampleMc).1 rfl,
   ((new_order_and_short_circuit newOkEnv sampleMc).2.2.2.2 rfl rfl rfl rfl).2
     [⟨⟨.v4 10, 4000⟩, false⟩, ⟨⟨.v4 99, 5000⟩, false⟩,
      ⟨⟨.v4 11, 4000⟩, false⟩, ⟨⟨.v4 77, 7000⟩, true⟩] [] rfl⟩

/-! ### C8 -/

/-- **C8**: with an empty peer endpoint list, `tcp_punch_hole` spawns no
connectors but still calls `listen` on the provided socket, spawns the
acceptor and the timeout sentinel, and returns the stream of the first
valid handshake delivered on the results channel before the global
timeout (with the warnings accumulated before it). -/
theorem punch_hole_empty_endpoints (env : PunchEnv) (priv : PrivRendezvousInfo)
    (secret : Bytes4) (la : SocketAddr) (pre : List PunchWarning)
    (rest : List ChanEvent) (s : TcpStream)
    (hla : env.localAddr = .ok la)
    (hlisten : env.listen = .ok ())
    (hev : env.events = pre.map (fun w => ChanEvent.msg (.warning w)) ++
           ChanEvent.msg (.success s) :: rest) :
    tcp_punch_hole env priv ⟨[], secret⟩ =
      (.result (.wok s pre), ⟨[], true, true, true⟩) := by
  unfold tcp_punch_hole
  rw [hla]
  dsimp only [decompose]
  rw [show spawnConnectors env [] 0 = .ok [] from rfl, hlisten, hev]
  dsimp only
  rw [punchLoop_success]
  simp

/-- Witness for C8: the sample hole-punch environment against a peer with
no endpoints returns the accepted stream after one warning. -/
theorem punch_hole_empty_endpoints_witness :
    tcp_punch_hole samplePunchEnv samplePriv sampleEmptyPub =
      (.result (.wok 5 [.connect]), ⟨[], true, true, true⟩) :=
  punch_hole_empty_endpoints samplePunchEnv samplePriv (5, 6, 7, 8)
    ⟨.v4 1, 2⟩ [.connect] [] 5 rfl rfl rfl

/-! ### C9 -/

theorem punchLoop_ne_panicked :
    ∀ (events : List ChanEvent) (acc : List PunchWarning),
      ChanEvent.disconnect ∉ events → punchLoop events acc ≠ .panicked := by
  intro events
  induction events with
  | nil => intro acc _ h; simp [punchLoop] at h
  | cons e rest ih =>
    intro acc hno
    match e with
    | .disconnect => exact absurd (List.mem_cons_self _ _) hno
    | .msg .timeout => simp [punchLoop]
    | .msg (.success s) => simp [punchLoop]
    | .msg (.warning w) =>
      simp only [punchLoop]
      exact ih (acc ++ [w]) (fun hm => hno (List.mem_cons_of_mem _ hm))

theorem observedEvents_no_disconnect :
    ∀ (actions : List WorkerAction) (clones : List Nat),
      ChanEvent.disconnect ∉ observedEvents actions true clones := by
  intro actions
  induction actions with
  | nil => intro clones; simp [observedEvents]
  | cons a rest ih =>
    intro clones
    match a with
    | .cloneTx c =>
      simp only [observedEvents]
      exact ih (c :: clones)
    | .send c m =>
      simp only [observedEvents]
      by_cases hc : c ∈ clones
      · simp only [hc, if_true, List.mem_cons]
        intro hd
        rcases hd with hd | hd
        · exact ChanEvent.noConfusion hd
        · exact ih clones hd
      · simp only [hc, if_false]
        exact ih clones
    | .dropTx c =>
      simp only [observedEvents]
      exact ih (clones.erase c)

/-- **C9**: the channel-disconnected branch of `tcp_punch_hole`'s result
loop (which panics) is unreachable.  The worker threads hold only clones
of `results_tx` while the original sender is owned by the function itself
and dropped only at its return points, so no worker action can drop it;
under the mpsc semantics modelled in `observedEvents`, a disconnection is
reported only once *every* sender is dropped.  Hence whatever trace of
clone/send/drop actions the workers perform, the event sequence the loop
consumes contains no disconnection and the loop never reaches the
panic. -/
theorem punch_hole_no_panic (la : Except Unit SocketAddr)
    (ns : Nat → Except Unit Unit) (li : Except Unit Unit)
    (actions : List WorkerAction) (clones : List Nat)
    (priv : PrivRendezvousInfo) (pub : PubRendezvousInfo) :
    (tcp_punch_hole ⟨la, ns, li, observedEvents actions true clones⟩ priv pub).1 ≠
      .panicked := by
  unfold tcp_punch_hole
  cases hla : la with
  | error e => simp
  | ok la' =>
    dsimp only
    cases hsc : spawnConnectors ⟨.ok la', ns, li, observedEvents actions true clones⟩
        (decompose pub).1 0 with
    | error sp => simp
    | ok cs =>
      cases hl : li with
      | error e => simp
      | ok u =>
        dsimp only
        exact punchLoop_ne_panicked (observedEvents actions true clones) []
          (observedEvents_no_disconnect actions clones)

/-- Witness for C9: a concrete worker trace — the listener clones the
sender, a connector warning and an accepted stream are sent, the clone is
dropped — does not reach the panic. -/
theorem punch_hole_no_panic_witness :
    (tcp_punch_hole
        ⟨.ok ⟨.v4 1, 2⟩, fun _ => .ok (), .ok (),
         observedEvents
           [.cloneTx 1, .send 1 (.warning .connect),
            .send 1 (.success 5), .dropTx 1] true []⟩
        samplePriv sampleEmptyPub).1 ≠ .panicked :=
  punch_hole_no_panic (.ok ⟨.v4 1, 2⟩) (fun _ => .ok ()) (.ok ())
    [.cloneTx 1, .send 1 (.warning .connect), .send 1 (.success 5), .dropTx 1]
    [] samplePriv sampleEmptyPub

/-! ### C10 -/

/-- **C10**: when the socket is bound to a specific (non-unspecified)
IPv4 address matching none of the context's recorded interfaces, a
successful `map` run performed exactly one fresh IGD gateway search, at
that address with a 1-second timeout; if the search fails a `FindGateway`
warning is emitted, and if the search and the subsequent TCP port-mapping
request succeed the returned external address appears in the endpoint
list with `nat_restricted = false` (IGD provenance). -/
theorem map_fresh_gateway_search (env : MapEnv) (mc : MappingContext)
    (a : Ipv4Addr) (port : Nat) (tagged : List (MappedSocketAddr × Source))
    (searches : List (Ipv4Addr × Nat)) (ws : List MapWarning)
    (hla : env.localAddr = .ok ⟨.v4 a, port⟩)
    (hspec : ipv4_is_unspecified a = false)
    (hno : ∀ i ∈ interfaces_v4 mc, i.addr ≠ a)
    (h : mapTagged env mc = .wok (tagged, searches) ws) :
    searches = [(a, 1)] ∧
    (env.searchGateway a 1 = .error () → MapWarning.findGateway ∈ ws) ∧
    (∀ g ext, env.searchGateway a 1 = .ok g →
      env.getAnyAddress g ⟨.v4 a, port⟩ = .ok ext →
      ((⟨⟨ext, false⟩, Source.igd⟩ : MappedSocketAddr × Source) ∈ tagged)) := by
  have hlook : lookupIfaceGateway mc a = none := by
    unfold lookupIfaceGateway
    have hfind : (interfaces_v4 mc).find? (fun iface => iface.addr = a) = none := by
      rw [List.find?_eq_none]
      intro x hx
      simp [hno x hx]
    rw [hfind]
    rfl
  obtain ⟨hT, hS, hW⟩ := mapTagged_wok_inv env mc tagged searches ws ⟨.v4 a, port⟩ hla h
  refine ⟨?_, ?_, ?_⟩
  · rw [hS]
    simp only [discoverPhase, hspec, Bool.false_eq_true, if_false]
    unfold discoverSpecV4
    rw [hlook]
    cases hsg : env.searchGateway a 1 <;> rfl
  · intro hsg
    rw [hW]
    simp only [discoverPhase, hspec, Bool.false_eq_true, if_false]
    unfold discoverSpecV4
    rw [hlook, hsg]
    simp
  · intro g ext hsg hga
    rw [hT]
    simp only [discoverPhase, hspec, Bool.false_eq_true, if_false]
    unfold discoverSpecV4
    rw [hlook, hsg]
    dsimp only
    unfold igdRequest
    rw [hga]
    simp

/-- Witness for C10: a socket bound to `42.0.0.0:700` with one unrelated
interface recorded: the search trace is exactly one 1-second search at
`42`, and the IGD-mapped external address is in the list,
unrestricted. -/
theorem map_fresh_gateway_search_witness :
    ([((42 : Ipv4Addr), (1 : Nat))] : List (Ipv4Addr × Nat)) = [(42, 1)] ∧
    ((⟨⟨⟨.v4 99, 5000⟩, false⟩, Source.igd⟩ : MappedSocketAddr × Source) ∈
      ([(⟨⟨.v4 42, 700⟩, false⟩, .iface), (⟨⟨.v4 99, 5000⟩, false⟩, .igd)] :
        List (MappedSocketAddr × Source))) :=
  ⟨(map_fresh_gateway_search freshSearchEnv freshSearchMc 42 700
      [(⟨⟨.v4 42, 700⟩, false⟩, .iface), (⟨⟨.v4 99, 5000⟩, false⟩, .igd)]
      [(42, 1)] [] rfl rfl (by decide) rfl).1,
   (map_fresh_gateway_search freshSearchEnv freshSearchMc 42 700
      [(⟨⟨.v4 42, 700⟩, false⟩, .iface), (⟨⟨.v4 99, 5000⟩, false⟩, .igd)]
      [(42, 1)] [] rfl rfl (by decide) rfl).2.2
      sampleGateway ⟨.v4 99, 5000⟩ rfl rfl⟩

end NatTraversal
